import Mathlib

/-!
Verification development for the feed_filter recording extension.

The source has two modules:
* `extension/background.js` — the Session Coordinator: module-level state
  `isRecording`, `recordingTabId`, `startTime`, plus `getStatus`,
  `startRecording`, `stopRecording`, and offscreen-document lifecycle helpers.
* `extension/offscreen.js` — the Capture Worker: `startCapture`, `stopCapture`,
  `uploadRecording` with a local download fallback.

JavaScript objects that cross context boundaries (message responses) are
embedded as association lists of key/value pairs where a later entry for the
same key overrides an earlier one, matching object-literal and spread
semantics.  The asynchronous host environment (tab capture, getUserMedia,
fetch, Date.now) is passed in explicitly as environment values, so each
handler becomes a pure function from state and environment to new state,
response object, and a trace of externally visible actions.
-/

/-- Values that can appear in the message objects exchanged between contexts. -/
inductive JsVal where
  | null : JsVal
  | bool : Bool → JsVal
  | str : String → JsVal
  | num : Int → JsVal
deriving DecidableEq, Repr

/-- A JavaScript object, as an ordered list of fields; for a duplicated key the
later entry wins, as in object literals and spreads. -/
def JsObj : Type := List (String × JsVal)

instance : DecidableEq JsObj := by
  unfold JsObj
  infer_instance

instance : Membership (String × JsVal) JsObj := by
  unfold JsObj
  infer_instance

instance : Append JsObj := by
  unfold JsObj
  infer_instance

/-- Field lookup with the later occurrence of a key taking precedence. -/
def JsObj.get : JsObj → String → Option JsVal
  | [], _ => none
  | (k, v) :: rest, key =>
      match JsObj.get rest key with
      | some w => some w
      | none => if k = key then some v else none

/-- Truthiness of a JavaScript value: null, false, the empty string and 0 are
falsy, everything else modelled here is truthy. -/
def JsVal.truthy : JsVal → Bool
  | .null => false
  | .bool b => b
  | .str s => !(s = "")
  | .num n => !(n = 0)

/-- Truthiness of a field access such as `response.success`: an absent field
reads as `undefined`, which is falsy. -/
def truthyField (o : JsObj) (k : String) : Bool :=
  match o.get k with
  | none => false
  | some v => v.truthy

/-- Module-level state of `background.js`: the three session variables, the
badge set through `chrome.action`, and whether an offscreen document exists. -/
structure CoordState where
  isRecording : Bool
  recordingTabId : Option Nat
  startTime : Option Nat
  badgeText : String
  badgeColor : String
  offscreenExists : Bool
deriving DecidableEq, Repr

/-- State at service-worker load: all three variables at their declared
initial values, empty badge, no offscreen document. -/
def initialState : CoordState :=
  { isRecording := false
    recordingTabId := none
    startTime := none
    badgeText := ""
    badgeColor := ""
    offscreenExists := false }

/-- Embedding of the `elapsed` computation of the getStatus handler:
`startTime ? Math.floor((Date.now() - startTime) / 1000) : 0`.  The condition
is truthiness of `startTime`, so both `null` and the number 0 select the `0`
branch; `Math.floor` of the real-number quotient is `Int.fdiv` by 1000. -/
def elapsedOf (startTime : Option Nat) (now : Nat) : Int :=
  match startTime with
  | none => 0
  | some t => if t = 0 then 0 else Int.fdiv ((now : Int) - (t : Int)) 1000

/-- Conversion of an optional numeric variable to the value sent in a
response: `null` when absent. -/
def optNum : Option Nat → JsVal
  | none => JsVal.null
  | some n => JsVal.num (n : Int)

/-- Embedding of the `getStatus` branch of the message listener: a pure read
of the module state answered synchronously via `sendResponse`. -/
def getStatusResponse (s : CoordState) (now : Nat) : JsObj :=
  [("isRecording", JsVal.bool s.isRecording),
   ("recordingTabId", optNum s.recordingTabId),
   ("startTime", optNum s.startTime),
   ("elapsed", JsVal.num (elapsedOf s.startTime now))]

/-- Environment of one `startRecording` run: either some awaited step threw
(with a flag recording whether `createOffscreenDocument` had already
completed, and the message of the error), or the delegation round trip
resolved with the response object `r` from the Capture Worker. -/
inductive StartEnv where
  | fault (offscreenCreated : Bool) (msg : String)
  | resp (r : JsObj)

/-- Embedding of `startRecording(tabId)` from `background.js`.  The
already-recording guard answers first; otherwise the stream id is acquired,
`createOffscreenDocument` runs (create-if-absent), the start command is
delegated, and only a truthy `response.success` commits the session fields
and the REC badge.  The worker response is returned verbatim; a thrown fault
is caught and turned into a failure object. -/
def startRecording (s : CoordState) (tabId : Nat) (now : Nat) (env : StartEnv) :
    CoordState × JsObj :=
  if s.isRecording then
    (s, [("success", JsVal.bool false), ("error", JsVal.str "Already recording")])
  else
    match env with
    | .fault created msg =>
        ({ s with offscreenExists := s.offscreenExists || created },
         [("success", JsVal.bool false), ("error", JsVal.str msg)])
    | .resp r =>
        let s1 := { s with offscreenExists := true }
        if truthyField r "success" then
          ({ s1 with
              isRecording := true
              recordingTabId := some tabId
              startTime := some now
              badgeText := "REC"
              badgeColor := "#e74c3c" }, r)
        else
          (s1, r)

/-- Environment of one `stopRecording` run: either the delegation of the stop
command threw before any worker result existed, or it resolved with the
worker response `r`. -/
inductive StopEnv where
  | fault (msg : String)
  | resp (r : JsObj)

/-- Embedding of `stopRecording(backendUrl)` from `background.js`.  The
not-recording guard answers first; once the delegated stop command resolves,
the three session variables are cleared, the badge text is cleared, and
`closeOffscreenDocument` (close-if-present, hence idempotent) removes the
offscreen document; the worker response is then returned verbatim. -/
def stopRecording (s : CoordState) (env : StopEnv) : CoordState × JsObj :=
  if s.isRecording then
    match env with
    | .fault msg =>
        (s, [("success", JsVal.bool false), ("error", JsVal.str msg)])
    | .resp r =>
        ({ s with
            isRecording := false
            recordingTabId := none
            startTime := none
            badgeText := ""
            offscreenExists := false }, r)
  else
    (s, [("success", JsVal.bool false), ("error", JsVal.str "Not recording")])

/-- Session invariant of the data model: each of `recordingTabId` and
`startTime` is non-null exactly when `isRecording` is true. -/
def SessionInv (s : CoordState) : Prop :=
  (s.recordingTabId ≠ none ↔ s.isRecording = true) ∧
  (s.startTime ≠ none ↔ s.isRecording = true)

instance (s : CoordState) : Decidable (SessionInv s) := by
  unfold SessionInv
  infer_instance

/-- States of the Coordinator reachable from service-worker load by any
sequence of operations.  `getStatusResponse` is a pure read returning no new
state, so only `startRecording` and `stopRecording` appear as steps. -/
inductive Reachable : CoordState → Prop
  | init : Reachable initialState
  | start (s : CoordState) (tab now : Nat) (env : StartEnv) :
      Reachable s → Reachable (startRecording s tab now env).1
  | stop (s : CoordState) (env : StopEnv) :
      Reachable s → Reachable (stopRecording s env).1

/-- Binary chunk of recorded data, as a byte sequence. -/
def Chunk : Type := List Nat

instance : DecidableEq Chunk := by
  unfold Chunk
  infer_instance

instance : Append Chunk := by
  unfold Chunk
  infer_instance

/-- States of a MediaRecorder as this program can observe them: `recording`
after `start`, `inactive` after `stop`.  The program never pauses. -/
inductive MRState where
  | recording : MRState
  | inactive : MRState
deriving DecidableEq, Repr

/-- Module-level state of `offscreen.js`: the `mediaRecorder` variable (null
before first capture), the chunk buffer, and the `mediaStream` variable
carrying the identifiers of its tracks. -/
structure WorkerState where
  mediaRecorder : Option MRState
  recordedChunks : List Chunk
  mediaStream : Option (List Nat)
deriving DecidableEq

/-- Embedding of the `ondataavailable` handler body: a chunk is appended to
`recordedChunks` only when `event.data.size > 0`. -/
def pushChunk (chunks : List Chunk) (data : Chunk) : List Chunk :=
  if 0 < data.length then chunks ++ [data] else chunks

/-- Buffer contents after the recorder has delivered the listed chunk events,
in production order, starting from the buffer `buf`. -/
def processEvents (buf : List Chunk) (events : List Chunk) : List Chunk :=
  events.foldl pushChunk buf

/-- Environment of one `startCapture` run: `getUserMedia` either rejects with
an error message or resolves with a stream whose tracks are listed. -/
inductive StartCapEnv where
  | fault (msg : String)
  | stream (tracks : List Nat)

/-- Embedding of `startCapture(streamId)` from `offscreen.js`: on a resolved
stream the module stores it, resets the chunk buffer, creates the recorder
and starts it; a rejection is caught and answered as a failure object. -/
def startCapture (s : WorkerState) (env : StartCapEnv) : WorkerState × JsObj :=
  match env with
  | .fault msg =>
      (s, [("success", JsVal.bool false), ("error", JsVal.str msg)])
  | .stream tracks =>
      ({ mediaRecorder := some MRState.recording
         recordedChunks := []
         mediaStream := some tracks },
       [("success", JsVal.bool true)])

/-- Externally visible actions of the worker during a stop/upload run, in the
order they are issued: stopping one stream track, attempting the multipart
POST, and the one-way `downloadFallback` message (which carries the object
URL made from the artifact payload and the fallback filename, and whose
delivery is never awaited). -/
inductive WAction where
  | stopTrack (track : Nat)
  | uploadAttempt (target : String) (field : String) (filename : String) (payload : Chunk)
  | sendDownloadFallback (urlId : Nat) (refdata : Chunk) (filename : String)
deriving DecidableEq

/-- Outcome of the `fetch` call: a transport-level rejection, or an HTTP
response with its `ok` flag, status code, and the result of `response.json()`
(which itself can reject). -/
inductive FetchOutcome where
  | networkFault (msg : String)
  | response (ok : Bool) (status : Nat) (json : Except String JsObj)

/-- Environment of one `uploadRecording` run: the two `Date.now()` readings
(upload filename, then fallback filename), the identifier that
`URL.createObjectURL` would mint, and the fetch outcome. -/
structure UploadEnv where
  now : Nat
  fallbackNow : Nat
  objectUrl : Nat
  fetch : FetchOutcome

/-- Embedding of `backendUrl.replace(/\x2f$/, '')` on the character list of
the string: exactly one trailing slash is removed when present. -/
def dropTrailingSlash : List Char → List Char
  | [] => []
  | [c] => if c = '/' then [] else [c]
  | c :: d :: rest => c :: dropTrailingSlash (d :: rest)

/-- The same operation at the `String` level. -/
def stripSlash (s : String) : String := String.mk (dropTrailingSlash s.data)

/-- Embedding of `uploadRecording(blob, backendUrl)` from `offscreen.js`.
One multipart POST of the single field `video` with filename
`recording_{Date.now()}.webm` goes to the stripped url plus `/upload`.  A
non-ok status throws before `response.json()` is read; every caught failure
mints an object URL for the blob, fires the `downloadFallback` message
without awaiting it, and answers failure with `savedLocally`.  A success
status answers the object literal with `success: true` spread-merged with the
parsed server metadata. -/
def uploadRecording (blob : Chunk) (backendUrl : String) (env : UploadEnv) :
    JsObj × List WAction :=
  let url := stripSlash backendUrl
  let post := WAction.uploadAttempt (url ++ "/upload") "video"
      ("recording_" ++ toString env.now ++ ".webm") blob
  let fallback := fun (msg : String) =>
    (([("success", JsVal.bool false), ("error", JsVal.str msg),
       ("savedLocally", JsVal.bool true)] : JsObj),
     [post, WAction.sendDownloadFallback env.objectUrl blob
        ("linkedin_recording_" ++ toString env.fallbackNow ++ ".webm")])
  match env.fetch with
  | .networkFault msg => fallback msg
  | .response ok status json =>
      if ok then
        match json with
        | .ok meta => ((("success", JsVal.bool true) :: meta : JsObj), [post])
        | .error msg => fallback msg
      else
        fallback ("Upload failed: " ++ toString status)

/-- Embedding of `stopCapture(backendUrl)` from `offscreen.js`.  A null or
inactive recorder answers the guard failure untouched.  Otherwise the onstop
continuation runs: every track of the stream (when one is set) is stopped,
the buffered chunks are concatenated into the blob, and the upload attempt
runs on that blob; its result is the answer and the recorder is left
inactive. -/
def stopCapture (s : WorkerState) (backendUrl : String) (env : UploadEnv) :
    WorkerState × JsObj × List WAction :=
  match s.mediaRecorder with
  | none =>
      (s, [("success", JsVal.bool false), ("error", JsVal.str "No active recording")], [])
  | some MRState.inactive =>
      (s, [("success", JsVal.bool false), ("error", JsVal.str "No active recording")], [])
  | some MRState.recording =>
      let trackActions :=
        match s.mediaStream with
        | none => []
        | some tracks => tracks.map WAction.stopTrack
      let blob : Chunk := s.recordedChunks.flatten
      let out := uploadRecording blob backendUrl env
      ({ s with mediaRecorder := some MRState.inactive },
       out.1, trackActions ++ out.2)

/-- Action trace of one `stopCapture` run. -/
def stopActions (s : WorkerState) (backendUrl : String) (env : UploadEnv) :
    List WAction :=
  (stopCapture s backendUrl env).2.2

/-- Discriminator for track-stop actions. -/
def WAction.isStopTrack : WAction → Bool
  | .stopTrack _ => true
  | _ => false

/-- Discriminator for upload-attempt actions. -/
def WAction.isUpload : WAction → Bool
  | .uploadAttempt _ _ _ _ => true
  | _ => false

/-- Failing fetch outcomes: a transport rejection, a non-ok status, or a
body whose JSON parse rejects. -/
def FetchOutcome.failing : FetchOutcome → Prop
  | .networkFault _ => True
  | .response ok _ json => ok = false ∨ ∃ e, json = Except.error e

/-- One `startRecording` step preserves the session invariant. -/
theorem sessionInv_start (s : CoordState) (tab now : Nat) (env : StartEnv)
    (h : SessionInv s) : SessionInv (startRecording s tab now env).1 := by
  unfold startRecording
  by_cases hr : s.isRecording
  · simp [hr, h]
  · cases env with
    | fault created msg =>
        simp only [hr]
        simpa [SessionInv, hr] using h
    | resp r =>
        by_cases hs : truthyField r "success"
        · simp [hr, hs, SessionInv]
        · simp only [hr, hs]
          simpa [SessionInv, hr] using h

/-- One `stopRecording` step preserves the session invariant. -/
theorem sessionInv_stop (s : CoordState) (env : StopEnv)
    (h : SessionInv s) : SessionInv (stopRecording s env).1 := by
  unfold stopRecording
  by_cases hr : s.isRecording
  · cases env with
    | fault msg => simpa [hr, SessionInv] using h
    | resp r => simp [hr, SessionInv]
  · simpa [hr, SessionInv] using h

/-- Every reachable Coordinator state satisfies the session invariant. -/
theorem sessionInv_reachable (s : CoordState) (h : Reachable s) : SessionInv s := by
  induction h with
  | init => simp [SessionInv, initialState]
  | start s tab now env _ ih => exact sessionInv_start s tab now env ih
  | stop s env _ ih => exact sessionInv_stop s env ih

/-- C8: in every state of the Coordinator reachable by any sequence of
getStatus, startRecording, and stopRecording operations, `recordingTabId` and
`startTime` are non-null if and only if `isRecording` is true; every
operation preserves this invariant (getStatus is a pure read and the session
record is the unique process-wide singleton by construction). -/
theorem coordinator_invariant (s : CoordState) (h : Reachable s) :
    ((s.recordingTabId ≠ none ↔ s.isRecording = true) ∧
     (s.startTime ≠ none ↔ s.isRecording = true)) ∧
    SessionInv (startRecording s 0 0 (StartEnv.resp [("success", JsVal.bool true)])).1 ∧
    SessionInv (stopRecording s (StopEnv.resp [("success", JsVal.bool true)])).1 := by
  refine ⟨sessionInv_reachable s h, ?_, ?_⟩
  · exact sessionInv_start s 0 0 _ (sessionInv_reachable s h)
  · exact sessionInv_stop s _ (sessionInv_reachable s h)

/-- Witness for C8 at a concrete reachable state: the state after one
successful start from the initial state. -/
theorem coordinator_invariant_witness :
    ((((startRecording initialState 5 1000
          (StartEnv.resp [("success", JsVal.bool true)])).1.recordingTabId ≠ none ↔
        (startRecording initialState 5 1000
          (StartEnv.resp [("success", JsVal.bool true)])).1.isRecording = true) ∧
      ((startRecording initialState 5 1000
          (StartEnv.resp [("success", JsVal.bool true)])).1.startTime ≠ none ↔
        (startRecording initialState 5 1000
          (StartEnv.resp [("success", JsVal.bool true)])).1.isRecording = true)) ∧
     SessionInv (startRecording (startRecording initialState 5 1000
        (StartEnv.resp [("success", JsVal.bool true)])).1 0 0
        (StartEnv.resp [("success", JsVal.bool true)])).1 ∧
     SessionInv (stopRecording (startRecording initialState 5 1000
        (StartEnv.resp [("success", JsVal.bool true)])).1
        (StopEnv.resp [("success", JsVal.bool true)])).1) :=
  coordinator_invariant _
    (Reachable.start initialState 5 1000 (StartEnv.resp [("success", JsVal.bool true)])
      Reachable.init)

/-- C1: every `stopRecording` call that passes the active-session check and
whose delegated stop command resolves with a worker result `r` — success,
failure, or saved-locally fallback alike — leaves the session variables at
their Idle values, clears the badge, closes the offscreen document, and
returns `r` verbatim. -/
theorem stopRecording_cleanup (s : CoordState) (r : JsObj)
    (h : s.isRecording = true) :
    (stopRecording s (StopEnv.resp r)).1.isRecording = false ∧
    (stopRecording s (StopEnv.resp r)).1.recordingTabId = none ∧
    (stopRecording s (StopEnv.resp r)).1.startTime = none ∧
    (stopRecording s (StopEnv.resp r)).1.badgeText = "" ∧
    (stopRecording s (StopEnv.resp r)).1.offscreenExists = false ∧
    (stopRecording s (StopEnv.resp r)).2 = r := by
  simp [stopRecording, h]

/-- Witness for C1 at a concrete recording state and a saved-locally worker
result. -/
theorem stopRecording_cleanup_witness :
    (stopRecording ⟨true, some 7, some 1000, "REC", "#e74c3c", true⟩
        (StopEnv.resp [("success", JsVal.bool false),
          ("error", JsVal.str "down"), ("savedLocally", JsVal.bool true)])).1.isRecording
        = false ∧
    (stopRecording ⟨true, some 7, some 1000, "REC", "#e74c3c", true⟩
        (StopEnv.resp [("success", JsVal.bool false),
          ("error", JsVal.str "down"), ("savedLocally", JsVal.bool true)])).1.recordingTabId
        = none ∧
    (stopRecording ⟨true, some 7, some 1000, "REC", "#e74c3c", true⟩
        (StopEnv.resp [("success", JsVal.bool false),
          ("error", JsVal.str "down"), ("savedLocally", JsVal.bool true)])).1.startTime
        = none ∧
    (stopRecording ⟨true, some 7, some 1000, "REC", "#e74c3c", true⟩
        (StopEnv.resp [("success", JsVal.bool false),
          ("error", JsVal.str "down"), ("savedLocally", JsVal.bool true)])).1.badgeText
        = "" ∧
    (stopRecording ⟨true, some 7, some 1000, "REC", "#e74c3c", true⟩
        (StopEnv.resp [("success", JsVal.bool false),
          ("error", JsVal.str "down"), ("savedLocally", JsVal.bool true)])).1.offscreenExists
        = false ∧
    (stopRecording ⟨true, some 7, some 1000, "REC", "#e74c3c", true⟩
        (StopEnv.resp [("success", JsVal.bool false),
          ("error", JsVal.str "down"), ("savedLocally", JsVal.bool true)])).2
        = [("success", JsVal.bool false),
           ("error", JsVal.str "down"), ("savedLocally", JsVal.bool true)] :=
  stopRecording_cleanup _ _ rfl

/-- C2: `startRecording` while a session is active returns the state
completely unchanged together with a failure object whose error is the
already-recording message, whatever the environment would have done. -/
theorem startRecording_alreadyActive (s : CoordState) (tab now : Nat)
    (env : StartEnv) (h : s.isRecording = true) :
    (startRecording s tab now env).1 = s ∧
    JsObj.get (startRecording s tab now env).2 "success" = some (JsVal.bool false) ∧
    JsObj.get (startRecording s tab now env).2 "error"
      = some (JsVal.str "Already recording") := by
  simp [startRecording, h, JsObj.get]

/-- Witness for C2 at a concrete active state. -/
theorem startRecording_alreadyActive_witness :
    (startRecording ⟨true, some 7, some 1000, "REC", "#e74c3c", true⟩ 9 2000
        (StartEnv.resp [("success", JsVal.bool true)])).1
      = ⟨true, some 7, some 1000, "REC", "#e74c3c", true⟩ ∧
    JsObj.get (startRecording ⟨true, some 7, some 1000, "REC", "#e74c3c", true⟩ 9 2000
        (StartEnv.resp [("success", JsVal.bool true)])).2 "success"
      = some (JsVal.bool false) ∧
    JsObj.get (startRecording ⟨true, some 7, some 1000, "REC", "#e74c3c", true⟩ 9 2000
        (StartEnv.resp [("success", JsVal.bool true)])).2 "error"
      = some (JsVal.str "Already recording") :=
  startRecording_alreadyActive _ _ _ _ rfl

/-- Reading the `elapsed` field of a status response gives exactly the
`elapsedOf` computation. -/
theorem getStatus_elapsed_field (s : CoordState) (now : Nat) :
    JsObj.get (getStatusResponse s now) "elapsed"
      = some (JsVal.num (elapsedOf s.startTime now)) := by
  simp [getStatusResponse, JsObj.get]

/-- Counterexample to C3 as stated: in the state of a session whose recorded
start timestamp is the number 0, the getStatus handler answers elapsed 0 at
time 5000, while the claimed formula floor((now - startedAt) / 1s) gives 5,
because the JavaScript condition `startTime ?` treats the number 0 as falsy. -/
theorem getStatus_epoch_counterexample :
    JsObj.get (getStatusResponse ⟨true, some 7, some 0, "REC", "#e74c3c", true⟩ 5000)
        "elapsed" = some (JsVal.num 0) ∧
    Int.fdiv (((5000 : Nat) : Int) - ((0 : Nat) : Int)) 1000 = 5 ∧
    (0 : Int) ≠ 5 := by
  refine ⟨?_, by decide, by decide⟩
  simp [getStatusResponse, JsObj.get, elapsedOf]

/-- C3 (amended): getStatus is a total pure read; in an Idle state satisfying
the session invariant it answers elapsed 0, in a session whose start
timestamp is nonzero it answers the floored whole-second difference, and
repeated queries within one session are monotonically non-decreasing. -/
theorem getStatus_elapsed (s : CoordState) (t now now1 now2 : Nat) :
    (s.isRecording = false → SessionInv s →
       JsObj.get (getStatusResponse s now) "elapsed" = some (JsVal.num 0)) ∧
    (s.startTime = some t → t ≠ 0 →
       JsObj.get (getStatusResponse s now) "elapsed"
         = some (JsVal.num (Int.fdiv ((now : Int) - (t : Int)) 1000))) ∧
    (now1 ≤ now2 → elapsedOf s.startTime now1 ≤ elapsedOf s.startTime now2) := by
  refine ⟨?_, ?_, ?_⟩
  · intro h1 h2
    have hst : s.startTime = none := by
      rcases h2 with ⟨_, h2b⟩
      by_contra hne
      have := h2b.mp hne
      simp [h1] at this
    rw [getStatus_elapsed_field, hst]
    rfl
  · intro hst ht
    rw [getStatus_elapsed_field, hst]
    simp [elapsedOf, ht]
  · intro hle
    cases hst : s.startTime with
    | none => simp [elapsedOf]
    | some t' =>
        by_cases ht : t' = 0
        · simp [elapsedOf, ht]
        · simp only [elapsedOf, ht, if_false]
          rw [Int.fdiv_eq_ediv _ (by norm_num), Int.fdiv_eq_ediv _ (by norm_num)]
          exact Int.ediv_le_ediv (by norm_num)
            (sub_le_sub_right (Int.ofNat_le.mpr hle) _)

/-- Witness for the amended C3: the Idle clause at the initial state, the
value clause for a session started at 1000 queried at 6500, and the
monotonicity clause between 6500 and 9000. -/
theorem getStatus_elapsed_witness :
    JsObj.get (getStatusResponse initialState 42) "elapsed" = some (JsVal.num 0) ∧
    JsObj.get (getStatusResponse ⟨true, some 7, some 1000, "REC", "#e74c3c", true⟩ 6500)
        "elapsed"
      = some (JsVal.num (Int.fdiv (((6500 : Nat) : Int) - ((1000 : Nat) : Int)) 1000)) ∧
    elapsedOf (CoordState.startTime ⟨true, some 7, some 1000, "REC", "#e74c3c", true⟩) 6500
      ≤ elapsedOf (CoordState.startTime ⟨true, some 7, some 1000, "REC", "#e74c3c", true⟩) 9000 :=
  ⟨(getStatus_elapsed initialState 0 42 0 0).1 rfl (by decide),
   (getStatus_elapsed ⟨true, some 7, some 1000, "REC", "#e74c3c", true⟩ 1000 6500 0 0).2.1
     rfl (by decide),
   (getStatus_elapsed ⟨true, some 7, some 1000, "REC", "#e74c3c", true⟩ 1000 0 6500 9000).2.2
     (by norm_num)⟩

/-- C4: with no session active, every failing `startRecording` run — a fault
thrown during stream acquisition or delegation, or a worker response whose
success field is falsy — leaves the three session variables at their Idle
values and answers a failure: a caught fault produces the failure object
carrying its message, and a worker failure response is passed back verbatim. -/
theorem startRecording_failure (s : CoordState) (tab now : Nat)
    (h : s.isRecording = false) :
    (∀ created : Bool, ∀ msg : String,
      (startRecording s tab now (StartEnv.fault created msg)).1.isRecording = false ∧
      (startRecording s tab now (StartEnv.fault created msg)).1.recordingTabId
        = s.recordingTabId ∧
      (startRecording s tab now (StartEnv.fault created msg)).1.startTime = s.startTime ∧
      JsObj.get (startRecording s tab now (StartEnv.fault created msg)).2 "success"
        = some (JsVal.bool false) ∧
      JsObj.get (startRecording s tab now (StartEnv.fault created msg)).2 "error"
        = some (JsVal.str msg)) ∧
    (∀ r : JsObj, truthyField r "success" = false →
      (startRecording s tab now (StartEnv.resp r)).1.isRecording = false ∧
      (startRecording s tab now (StartEnv.resp r)).1.recordingTabId = s.recordingTabId ∧
      (startRecording s tab now (StartEnv.resp r)).1.startTime = s.startTime ∧
      (startRecording s tab now (StartEnv.resp r)).2 = r) := by
  constructor
  · intro created msg
    simp [startRecording, h, JsObj.get]
  · intro r hr
    simp [startRecording, h, hr]

/-- Witness for C4 at the initial state, with a concrete acquisition fault
and a concrete worker failure response. -/
theorem startRecording_failure_witness :
    ((startRecording initialState 9 2000 (StartEnv.fault true "no stream")).1.isRecording
        = false ∧
      (startRecording initialState 9 2000 (StartEnv.fault true "no stream")).1.recordingTabId
        = initialState.recordingTabId ∧
      (startRecording initialState 9 2000 (StartEnv.fault true "no stream")).1.startTime
        = initialState.startTime ∧
      JsObj.get (startRecording initialState 9 2000 (StartEnv.fault true "no stream")).2
          "success" = some (JsVal.bool false) ∧
      JsObj.get (startRecording initialState 9 2000 (StartEnv.fault true "no stream")).2
          "error" = some (JsVal.str "no stream")) ∧
    ((startRecording initialState 9 2000
        (StartEnv.resp [("success", JsVal.bool false),
          ("error", JsVal.str "bad")])).1.isRecording = false ∧
      (startRecording initialState 9 2000
        (StartEnv.resp [("success", JsVal.bool false),
          ("error", JsVal.str "bad")])).1.recordingTabId = initialState.recordingTabId ∧
      (startRecording initialState 9 2000
        (StartEnv.resp [("success", JsVal.bool false),
          ("error", JsVal.str "bad")])).1.startTime = initialState.startTime ∧
      (startRecording initialState 9 2000
        (StartEnv.resp [("success", JsVal.bool false),
          ("error", JsVal.str "bad")])).2
        = [("success", JsVal.bool false), ("error", JsVal.str "bad")]) :=
  ⟨(startRecording_failure initialState 9 2000 rfl).1 true "no stream",
   (startRecording_failure initialState 9 2000 rfl).2
     [("success", JsVal.bool false), ("error", JsVal.str "bad")] rfl⟩

/-- Processing chunk events appends exactly the events of positive size, in
production order. -/
theorem processEvents_eq (events : List Chunk) :
    ∀ buf : List Chunk, processEvents buf events
      = buf ++ events.filter (fun d => decide (0 < d.length)) := by
  induction events with
  | nil => intro buf; simp [processEvents]
  | cons e es ih =>
      intro buf
      have h1 : processEvents buf (e :: es) = processEvents (pushChunk buf e) es := rfl
      rw [h1, ih (pushChunk buf e)]
      by_cases he : 0 < e.length
      · simp [pushChunk, he, List.filter_cons]
      · simp [pushChunk, he, List.filter_cons]

/-- C10: the chunk buffer only ever receives non-empty chunks — a zero-size
chunk leaves any buffer unchanged — so a capture that produced the listed
chunk events holds exactly its non-empty events in production order, every
buffered chunk is non-empty, and the assembled payload is the concatenation
of exactly the non-empty events. -/
theorem chunk_buffer_nonempty (events : List Chunk) :
    (∀ buf : List Chunk, pushChunk buf [] = buf) ∧
    processEvents [] events = events.filter (fun d => decide (0 < d.length)) ∧
    (∀ c ∈ processEvents [] events, 0 < c.length) ∧
    (processEvents [] events).flatten
      = (events.filter (fun d => decide (0 < d.length))).flatten := by
  refine ⟨?_, processEvents_eq events [], ?_, ?_⟩
  · intro buf
    rfl
  · intro c hc
    rw [processEvents_eq events []] at hc
    simp only [List.nil_append, List.mem_filter, decide_eq_true_eq] at hc
    exact hc.2
  · rw [processEvents_eq events []]
    rfl

/-- Witness for C10 on a concrete event sequence with two empty chunks. -/
theorem chunk_buffer_nonempty_witness :
    pushChunk [[1]] [] = [[1]] ∧
    processEvents [] [[1], [], [2, 3], []] = [[1], [2, 3]] ∧
    0 < List.length ([2, 3] : Chunk) ∧
    (processEvents [] [[1], [], [2, 3], []]).flatten
      = (([[1], [], [2, 3], []] : List Chunk).filter
          (fun d => decide (0 < d.length))).flatten :=
  ⟨(chunk_buffer_nonempty [[1], [], [2, 3], []]).1 [[1]],
   (chunk_buffer_nonempty [[1], [], [2, 3], []]).2.1,
   (chunk_buffer_nonempty [[1], [], [2, 3], []]).2.2.1 [2, 3] (by decide),
   (chunk_buffer_nonempty [[1], [], [2, 3], []]).2.2.2⟩

/-- C5: on every failing fetch outcome — transport rejection, non-ok status,
or a rejecting JSON parse — the upload run answers the failure object with
`savedLocally: true` and its trace is the attempted POST followed by the
one-way `downloadFallback` notification, which carries the object URL minted
for the artifact payload together with the synthesized fallback filename and
is never awaited. -/
theorem upload_fallback (blob : Chunk) (url : String) (env : UploadEnv)
    (h : env.fetch.failing) :
    ∃ msg : String,
      (uploadRecording blob url env).1
        = [("success", JsVal.bool false), ("error", JsVal.str msg),
           ("savedLocally", JsVal.bool true)] ∧
      (uploadRecording blob url env).2
        = [WAction.uploadAttempt (stripSlash url ++ "/upload") "video"
             ("recording_" ++ toString env.now ++ ".webm") blob,
           WAction.sendDownloadFallback env.objectUrl blob
             ("linkedin_recording_" ++ toString env.fallbackNow ++ ".webm")] := by
  rcases env with ⟨n, fn, ou, fetch⟩
  cases fetch with
  | networkFault msg => exact ⟨msg, rfl, rfl⟩
  | response ok status json =>
      cases ok with
      | false => exact ⟨"Upload failed: " ++ toString status, rfl, rfl⟩
      | true =>
          simp only [FetchOutcome.failing] at h
          rcases h with h | ⟨e, he⟩
          · cases h
          · subst he
            exact ⟨e, rfl, rfl⟩

/-- Witness for C5 at a concrete transport fault. -/
theorem upload_fallback_witness :
    ∃ msg : String,
      (uploadRecording [1, 2] "http://h/"
          ⟨7, 8, 9, FetchOutcome.networkFault "down"⟩).1
        = [("success", JsVal.bool false), ("error", JsVal.str msg),
           ("savedLocally", JsVal.bool true)] ∧
      (uploadRecording [1, 2] "http://h/"
          ⟨7, 8, 9, FetchOutcome.networkFault "down"⟩).2
        = [WAction.uploadAttempt (stripSlash "http://h/" ++ "/upload") "video"
             ("recording_" ++ toString 7 ++ ".webm") [1, 2],
           WAction.sendDownloadFallback 9 [1, 2]
             ("linkedin_recording_" ++ toString 8 ++ ".webm")] :=
  upload_fallback [1, 2] "http://h/" ⟨7, 8, 9, FetchOutcome.networkFault "down"⟩ trivial

/-- The action trace of every upload run begins with the multipart POST
attempt on the assembled payload. -/
theorem upload_acts_head (blob : Chunk) (url : String) (env : UploadEnv) :
    (uploadRecording blob url env).2
      = WAction.uploadAttempt (stripSlash url ++ "/upload") "video"
          ("recording_" ++ toString env.now ++ ".webm") blob
        :: (uploadRecording blob url env).2.tail := by
  rcases env with ⟨n, fn, ou, fetch⟩
  cases fetch with
  | networkFault msg => rfl
  | response ok status json =>
      cases ok with
      | false => rfl
      | true =>
          cases json with
          | ok meta => rfl
          | error e => rfl

/-- C7: in a run of `stopCapture` that passes the Capturing check, the
artifact payload handed to the upload attempt is the ordered concatenation of
the buffered chunks — for a buffer `[c1, c2, c3]` it is `c1 ++ c2 ++ c3` —
and an empty buffer still yields the upload attempt on a zero-length payload
whose outcome is answered, not an error of its own. -/
theorem stopCapture_artifact (s : WorkerState) (url : String) (env : UploadEnv)
    (h : s.mediaRecorder = some MRState.recording) :
    (∀ c1 c2 c3 : Chunk, s.recordedChunks = [c1, c2, c3] →
      WAction.uploadAttempt (stripSlash url ++ "/upload") "video"
          ("recording_" ++ toString env.now ++ ".webm") (c1 ++ (c2 ++ c3))
        ∈ stopActions s url env) ∧
    (s.recordedChunks = [] →
      WAction.uploadAttempt (stripSlash url ++ "/upload") "video"
          ("recording_" ++ toString env.now ++ ".webm") ([] : Chunk)
        ∈ stopActions s url env ∧
      (stopCapture s url env).2.1 = (uploadRecording ([] : Chunk) url env).1) := by
  have hacts : stopActions s url env
      = (match s.mediaStream with
          | none => ([] : List WAction)
          | some tracks => tracks.map WAction.stopTrack)
        ++ (uploadRecording s.recordedChunks.flatten url env).2 := by
    simp [stopActions, stopCapture, h]
  constructor
  · intro c1 c2 c3 hchunks
    rw [hacts, hchunks]
    apply List.mem_append_right
    have hflat : ([c1, c2, c3] : List Chunk).flatten = c1 ++ (c2 ++ c3) := by
      simp [List.flatten]
    rw [hflat, upload_acts_head]
    exact List.mem_cons_self _ _
  · intro hempty
    constructor
    · rw [hacts, hempty]
      apply List.mem_append_right
      have hflat : ([] : List Chunk).flatten = ([] : Chunk) := rfl
      rw [hflat, upload_acts_head]
      exact List.mem_cons_self _ _
    · simp [stopCapture, h, hempty]
      rfl

/-- Witness for C7: a three-chunk buffer and an empty buffer, both against a
concrete failing endpoint. -/
theorem stopCapture_artifact_witness :
    (WAction.uploadAttempt (stripSlash "b" ++ "/upload") "video"
        ("recording_" ++ toString 7 ++ ".webm") ([1] ++ ([2] ++ [3]))
      ∈ stopActions ⟨some MRState.recording, [[1], [2], [3]], some [5]⟩ "b"
          ⟨7, 8, 9, FetchOutcome.networkFault "down"⟩) ∧
    (WAction.uploadAttempt (stripSlash "b" ++ "/upload") "video"
        ("recording_" ++ toString 7 ++ ".webm") ([] : Chunk)
      ∈ stopActions ⟨some MRState.recording, [], some [5]⟩ "b"
          ⟨7, 8, 9, FetchOutcome.networkFault "down"⟩ ∧
      (stopCapture ⟨some MRState.recording, [], some [5]⟩ "b"
          ⟨7, 8, 9, FetchOutcome.networkFault "down"⟩).2.1
        = (uploadRecording ([] : Chunk) "b"
            ⟨7, 8, 9, FetchOutcome.networkFault "down"⟩).1) :=
  ⟨(stopCapture_artifact ⟨some MRState.recording, [[1], [2], [3]], some [5]⟩ "b"
      ⟨7, 8, 9, FetchOutcome.networkFault "down"⟩ rfl).1 [1] [2] [3] rfl,
   (stopCapture_artifact ⟨some MRState.recording, [], some [5]⟩ "b"
      ⟨7, 8, 9, FetchOutcome.networkFault "down"⟩ rfl).2 rfl⟩


/-- No action in an upload trace stops a track. -/
theorem upload_acts_no_stopTrack (blob : Chunk) (url : String) (env : UploadEnv) :
    ∀ a ∈ (uploadRecording blob url env).2, a.isStopTrack = false := by
  intro a ha
  rcases env with ⟨n, fn, ou, fetch⟩
  cases fetch with
  | networkFault msg =>
      simp only [uploadRecording, List.mem_cons, List.mem_singleton,
        List.not_mem_nil, or_false] at ha
      rcases ha with rfl | rfl
      · rfl
      · rfl
  | response ok status json =>
      cases ok with
      | false =>
          simp only [uploadRecording, Bool.false_eq_true, if_false, List.mem_cons,
            List.mem_singleton, List.not_mem_nil, or_false] at ha
          rcases ha with rfl | rfl
          · rfl
          · rfl
      | true =>
          cases json with
          | ok meta =>
              simp only [uploadRecording, if_true, List.mem_singleton] at ha
              subst ha
              rfl
          | error e =>
              simp only [uploadRecording, if_true, List.mem_cons,
                List.mem_singleton, List.not_mem_nil, or_false] at ha
              rcases ha with rfl | rfl
              · rfl
              · rfl

/-- In a concatenation whose first part has no upload actions and whose
second part has no track-stop actions, every track-stop position comes
strictly before every upload position. -/
theorem stops_before_uploads (pre post : List WAction)
    (hpre : ∀ a ∈ pre, a.isUpload = false)
    (hpost : ∀ a ∈ post, a.isStopTrack = false) :
    ∀ i j : Nat, ∀ a b : WAction,
      (pre ++ post)[i]? = some a → (pre ++ post)[j]? = some b →
      a.isStopTrack = true → b.isUpload = true → i < j := by
  intro i j a b hai hbj hsa hub
  have hjlen : pre.length ≤ j := by
    by_contra hlt
    push_neg at hlt
    rw [List.getElem?_append_left hlt] at hbj
    have hfalse := hpre b (List.getElem?_mem hbj)
    rw [hfalse] at hub
    cases hub
  have hilen : i < pre.length := by
    by_contra hge
    push_neg at hge
    rw [List.getElem?_append_right hge] at hai
    have hfalse := hpost a (List.getElem?_mem hai)
    rw [hfalse] at hsa
    cases hsa
  omega

/-- C6: every `stopCapture` run that passes the Capturing check stops each
track of the held stream exactly once, and every track-stop action sits at a
strictly earlier position of the trace than the upload attempt, so teardown
precedes the upload and cannot be skipped by a later upload failure. -/
theorem stopCapture_teardown (s : WorkerState) (url : String) (env : UploadEnv)
    (tracks : List Nat) (h1 : s.mediaRecorder = some MRState.recording)
    (h2 : s.mediaStream = some tracks) (h3 : tracks.Nodup) :
    (∀ tr ∈ tracks, (stopActions s url env).count (WAction.stopTrack tr) = 1) ∧
    (∀ i j : Nat, ∀ a b : WAction,
      (stopActions s url env)[i]? = some a →
      (stopActions s url env)[j]? = some b →
      a.isStopTrack = true → b.isUpload = true → i < j) := by
  have hacts : stopActions s url env
      = tracks.map WAction.stopTrack
        ++ (uploadRecording s.recordedChunks.flatten url env).2 := by
    simp [stopActions, stopCapture, h1, h2]
  constructor
  · intro tr htr
    rw [hacts, List.count_append]
    have hinj : Function.Injective WAction.stopTrack := by
      intro a b hab
      injection hab
    rw [List.count_map_of_injective _ _ hinj, List.count_eq_one_of_mem h3 htr]
    have hnot : WAction.stopTrack tr
        ∉ (uploadRecording s.recordedChunks.flatten url env).2 := by
      intro hmem
      have hfalse := upload_acts_no_stopTrack _ _ _ _ hmem
      simp [WAction.isStopTrack] at hfalse
    rw [List.count_eq_zero.mpr hnot]
  · have hpre : ∀ a ∈ tracks.map WAction.stopTrack, a.isUpload = false := by
      intro a ha
      rcases List.mem_map.mp ha with ⟨t, _, rfl⟩
      rfl
    rw [hacts]
    exact stops_before_uploads _ _ hpre
      (upload_acts_no_stopTrack s.recordedChunks.flatten url env)

/-- Witness for C6: a two-track stream against a failing endpoint; both
tracks are stopped exactly once and the first stop (position 0) precedes the
upload attempt (position 2). -/
theorem stopCapture_teardown_witness :
    (stopActions ⟨some MRState.recording, [[1]], some [10, 11]⟩ "b"
        ⟨7, 8, 9, FetchOutcome.networkFault "down"⟩).count (WAction.stopTrack 10) = 1 ∧
    (stopActions ⟨some MRState.recording, [[1]], some [10, 11]⟩ "b"
        ⟨7, 8, 9, FetchOutcome.networkFault "down"⟩).count (WAction.stopTrack 11) = 1 ∧
    (0 : Nat) < 2 :=
  ⟨(stopCapture_teardown ⟨some MRState.recording, [[1]], some [10, 11]⟩ "b"
      ⟨7, 8, 9, FetchOutcome.networkFault "down"⟩ [10, 11] rfl rfl (by decide)).1 10
      (by decide),
   (stopCapture_teardown ⟨some MRState.recording, [[1]], some [10, 11]⟩ "b"
      ⟨7, 8, 9, FetchOutcome.networkFault "down"⟩ [10, 11] rfl rfl (by decide)).1 11
      (by decide),
   (stopCapture_teardown ⟨some MRState.recording, [[1]], some [10, 11]⟩ "b"
      ⟨7, 8, 9, FetchOutcome.networkFault "down"⟩ [10, 11] rfl rfl (by decide)).2 0 2
      (WAction.stopTrack 10)
      (WAction.uploadAttempt (stripSlash "b" ++ "/upload") "video"
        ("recording_" ++ toString 7 ++ ".webm") [1])
      rfl rfl rfl rfl⟩

/-- Removing the trailing separator: on a character list ending in a slash,
exactly that slash is dropped. -/
theorem dropTrailingSlash_append (cs : List Char) :
    dropTrailingSlash (cs ++ ['/']) = cs := by
  induction cs with
  | nil => rfl
  | cons c rest ih =>
      cases rest with
      | nil => rfl
      | cons d rest2 =>
          calc dropTrailingSlash ((c :: d :: rest2) ++ ['/'])
              = c :: dropTrailingSlash ((d :: rest2) ++ ['/']) := rfl
            _ = c :: (d :: rest2) := by rw [ih]

/-- Removing the trailing separator: a character list not ending in a slash
is left unchanged. -/
theorem dropTrailingSlash_no_slash (cs : List Char) (h : cs.getLast? ≠ some '/') :
    dropTrailingSlash cs = cs := by
  induction cs with
  | nil => rfl
  | cons c rest ih =>
      cases rest with
      | nil =>
          have hc : ¬c = '/' := by
            intro hc
            exact h (by simp [hc])
          simp [dropTrailingSlash, hc]
      | cons d rest2 =>
          have h2 : (d :: rest2).getLast? ≠ some '/' := by
            simpa [List.getLast?_cons_cons] using h
          calc dropTrailingSlash (c :: d :: rest2)
              = c :: dropTrailingSlash (d :: rest2) := rfl
            _ = c :: (d :: rest2) := by rw [ih h2]

/-- C9: on a success status with a parsed JSON body, the upload run consists
of exactly one multipart POST of the single binary field `video`, carrying
the synthesized filename recording_{timestamp}.webm and the artifact payload,
addressed to the destination with a trailing path separator stripped plus
/upload; the answer is the success flag spread-merged with the server
metadata, the metadata taking precedence on a shared key. -/
theorem upload_success (blob : Chunk) (url : String) (env : UploadEnv)
    (status : Nat) (meta : JsObj)
    (h : env.fetch = FetchOutcome.response true status (Except.ok meta)) :
    (∀ k : String, ∀ v : JsVal, JsObj.get meta k = some v →
      JsObj.get (uploadRecording blob url env).1 k = some v) ∧
    (JsObj.get meta "success" = none →
      JsObj.get (uploadRecording blob url env).1 "success" = some (JsVal.bool true)) ∧
    (uploadRecording blob url env).2
      = [WAction.uploadAttempt (stripSlash url ++ "/upload") "video"
           ("recording_" ++ toString env.now ++ ".webm") blob] ∧
    (∀ base : List Char, stripSlash (String.mk (base ++ ['/'])) = String.mk base) ∧
    (∀ cs : List Char, cs.getLast? ≠ some '/' →
      stripSlash (String.mk cs) = String.mk cs) := by
  rcases env with ⟨n, fn, ou, fetch⟩
  simp only at h
  subst h
  refine ⟨?_, ?_, rfl, ?_, ?_⟩
  · intro k v hkv
    simp [uploadRecording, JsObj.get, hkv]
  · intro hnone
    simp [uploadRecording, JsObj.get, hnone]
  · intro base
    simp [stripSlash, dropTrailingSlash_append]
  · intro cs hcs
    simp [stripSlash, dropTrailingSlash_no_slash cs hcs]

/-- Witness for C9 at a concrete destination with a trailing slash and a
server answering metadata with a filename field. -/
theorem upload_success_witness :
    JsObj.get (uploadRecording [1, 2] "http://h/"
        ⟨7, 8, 9, FetchOutcome.response true 200
          (Except.ok [("filename", JsVal.str "f.webm")])⟩).1 "filename"
      = some (JsVal.str "f.webm") ∧
    JsObj.get (uploadRecording [1, 2] "http://h/"
        ⟨7, 8, 9, FetchOutcome.response true 200
          (Except.ok [("filename", JsVal.str "f.webm")])⟩).1 "success"
      = some (JsVal.bool true) ∧
    (uploadRecording [1, 2] "http://h/"
        ⟨7, 8, 9, FetchOutcome.response true 200
          (Except.ok [("filename", JsVal.str "f.webm")])⟩).2
      = [WAction.uploadAttempt (stripSlash "http://h/" ++ "/upload") "video"
           ("recording_" ++ toString 7 ++ ".webm") [1, 2]] ∧
    stripSlash (String.mk (['h', 'i'] ++ ['/'])) = String.mk ['h', 'i'] ∧
    stripSlash (String.mk ['h', 'i']) = String.mk ['h', 'i'] :=
  ⟨(upload_success [1, 2] "http://h/"
      ⟨7, 8, 9, FetchOutcome.response true 200
        (Except.ok [("filename", JsVal.str "f.webm")])⟩ 200
      [("filename", JsVal.str "f.webm")] rfl).1 "filename" (JsVal.str "f.webm") rfl,
   (upload_success [1, 2] "http://h/"
      ⟨7, 8, 9, FetchOutcome.response true 200
        (Except.ok [("filename", JsVal.str "f.webm")])⟩ 200
      [("filename", JsVal.str "f.webm")] rfl).2.1 rfl,
   (upload_success [1, 2] "http://h/"
      ⟨7, 8, 9, FetchOutcome.response true 200
        (Except.ok [("filename", JsVal.str "f.webm")])⟩ 200
      [("filename", JsVal.str "f.webm")] rfl).2.2.1,
   (upload_success [1, 2] "http://h/"
      ⟨7, 8, 9, FetchOutcome.response true 200
        (Except.ok [("filename", JsVal.str "f.webm")])⟩ 200
      [("filename", JsVal.str "f.webm")] rfl).2.2.2.1 ['h', 'i'],
   (upload_success [1, 2] "http://h/"
      ⟨7, 8, 9, FetchOutcome.response true 200
        (Except.ok [("filename", JsVal.str "f.webm")])⟩ 200
      [("filename", JsVal.str "f.webm")] rfl).2.2.2.2 ['h', 'i'] (by decide)⟩
